import Mathlib

/-!
Verification of the proximity-matching and signal-conditioning core of the
emergency-response coordination system.

The definitions below are a shallow embedding of the source:
* the Motoko backend actor (`src/backend/main.mo` and its sibling revision
  with police locations and alert targeting): `deg2rad`, `calculateDistance`,
  the radius queries, `triggerSOS`, `deactivateSOS`, the location updates;
* the frontend conditioning pipeline
  (`src/frontend/src/utils/leafletMarkers.ts` / `locationSmoothing.ts`):
  `haversineDistance`, `GPS_CONFIG`, `smoothCoordinate`,
  `processBackendUpdate`, `updateBackendState`, and the `watchPosition`
  callback state update discipline.

Floats are modelled as real numbers; `Math.atan2` / `Float.arctan2` is
modelled by the piecewise `arctan2` below.  Motoko `Principal` ids are
modelled as strings; the ordered `Map` store is modelled as an association
list with replace-on-add semantics (`kvAdd` / `kvGet`).  Trapping operations
return `Option` (`none` = trap).  The string statuses of
`processBackendUpdate` (initial, held, smoothed) are modelled by the inductive
`FixStatus`; both rejecting `return null` sites of the source are modelled
by `none`.
-/

namespace ERCS

/-- Two-argument arctangent, modelling `Math.atan2 y x` / `Float.arctan2 y x`. -/
noncomputable def arctan2 (y x : ℝ) : ℝ :=
  if 0 < x then Real.arctan (y / x)
  else if x < 0 then
    (if 0 ≤ y then Real.arctan (y / x) + Real.pi else Real.arctan (y / x) - Real.pi)
  else
    (if 0 < y then Real.pi / 2 else if y < 0 then -(Real.pi / 2) else 0)

/-- Coordinates record of the backend actor. -/
structure Coordinates where
  latitude : ℝ
  longitude : ℝ

/-- Backend `deg2rad` (the source uses the literal `3.1415926`, not `π`). -/
noncomputable def deg2rad (deg : ℝ) : ℝ :=
  deg * (3.1415926 / 180)

/-- Backend `calculateDistance` (Haversine with Earth radius 6371 km). -/
noncomputable def calculateDistance (coord1 coord2 : Coordinates) : ℝ :=
  let earthRadius : ℝ := 6371
  let dLat := deg2rad (coord2.latitude - coord1.latitude)
  let dLon := deg2rad (coord2.longitude - coord1.longitude)
  let a := Real.sin (dLat / 2) ^ 2 +
    Real.cos (deg2rad coord1.latitude) * Real.cos (deg2rad coord2.latitude) *
      Real.sin (dLon / 2) ^ 2
  let c := 2 * arctan2 (Real.sqrt a) (Real.sqrt (1 - a))
  earthRadius * c

/-- Frontend `EARTH_RADIUS_KM`. -/
def EARTH_RADIUS_KM : ℝ := 6371

/-- Frontend `deg2rad` (uses `Math.PI`). -/
noncomputable def deg2radF (deg : ℝ) : ℝ :=
  deg * (Real.pi / 180)

/-- Frontend `haversineDistance(lat1, lon1, lat2, lon2)` in kilometres. -/
noncomputable def haversineDistance (lat1 lon1 lat2 lon2 : ℝ) : ℝ :=
  let dLat := deg2radF (lat2 - lat1)
  let dLon := deg2radF (lon2 - lon1)
  let a := Real.sin (dLat / 2) * Real.sin (dLat / 2) +
    Real.cos (deg2radF lat1) * Real.cos (deg2radF lat2) *
      (Real.sin (dLon / 2) * Real.sin (dLon / 2))
  let c := 2 * arctan2 (Real.sqrt a) (Real.sqrt (1 - a))
  EARTH_RADIUS_KM * c

/-- The coordinate validity ranges of the data model (spec §3):
latitude in [-90, 90], longitude in [-180, 180]. -/
def validCoordinates (c : Coordinates) : Prop :=
  -90 ≤ c.latitude ∧ c.latitude ≤ 90 ∧ -180 ≤ c.longitude ∧ c.longitude ≤ 180

/-- `AppRole` variant type of the backend actor. -/
inductive AppRole where
  | police
  | ambulance
  deriving DecidableEq

/-- Backend `UserProfile`. -/
structure UserProfile where
  name : String
  phoneNumber : String
  role : AppRole

/-- Backend `AmbulanceLocation`. -/
structure AmbulanceLocation where
  ambulanceId : String
  coordinates : Coordinates
  timestamp : ℤ

/-- Backend `PoliceLocation`. -/
structure PoliceLocation where
  policeId : String
  coordinates : Coordinates
  timestamp : ℤ

/-- Backend `SOSAlert` (revision with alert targeting). -/
structure SOSAlert where
  ambulanceId : String
  coordinates : Coordinates
  timestamp : ℤ
  active : Bool
  targetPolice : List String

/-- Keyed-store lookup, modelling `Map.get`. -/
def kvGet {V : Type} (k : String) : List (String × V) → Option V
  | [] => none
  | (k1, v) :: rest => if k = k1 then some v else kvGet k rest

/-- Keyed-store insert/replace, modelling `Map.add` (replaces the entry for an
existing key, otherwise appends; the ordered-map iteration order of `mo:core`
`Map` is immaterial to the claims proved below). -/
def kvAdd {V : Type} (k : String) (v : V) : List (String × V) → List (String × V)
  | [] => [(k, v)]
  | (k1, v1) :: rest => if k = k1 then (k, v) :: rest else (k1, v1) :: kvAdd k v rest

/-- The stable state of the actor: the four keyed stores. -/
structure BackendState where
  userProfiles : List (String × UserProfile)
  ambulanceLocations : List (String × AmbulanceLocation)
  policeLocations : List (String × PoliceLocation)
  sosAlerts : List (String × SOSAlert)

/-- Backend `isAmbulance` helper. -/
def isAmbulance (s : BackendState) (caller : String) : Bool :=
  match kvGet caller s.userProfiles with
  | some profile =>
    match profile.role with
    | .ambulance => true
    | _ => false
  | none => false

/-- Backend `isPolice` helper. -/
def isPolice (s : BackendState) (caller : String) : Bool :=
  match kvGet caller s.userProfiles with
  | some profile =>
    match profile.role with
    | .police => true
    | _ => false
  | none => false

/-- Backend `updateAmbulanceLocation`.  The access-control mixin is external
to the reviewed source; its verdict enters as the boolean `hasPerm`.  `none`
models a `Runtime.trap`. -/
def updateAmbulanceLocation (hasPerm : Bool) (s : BackendState) (caller : String)
    (coordinates : Coordinates) (now : ℤ) : Option BackendState :=
  if !hasPerm then none
  else if !(isAmbulance s caller) then none
  else
    some { s with ambulanceLocations := (kvAdd caller ⟨caller, coordinates, now⟩
      s.ambulanceLocations) }

/-- Backend `updatePoliceLocation`. -/
def updatePoliceLocation (hasPerm : Bool) (s : BackendState) (caller : String)
    (coordinates : Coordinates) (now : ℤ) : Option BackendState :=
  if !hasPerm then none
  else if !(isPolice s caller) then none
  else
    some { s with policeLocations := (kvAdd caller ⟨caller, coordinates, now⟩
      s.policeLocations) }

/-- Radius-membership test used verbatim by all three radius queries. -/
noncomputable def inRadius (center : Coordinates) (radius : ℝ)
    (r : String × AmbulanceLocation) : Bool :=
  decide (calculateDistance center r.2.coordinates ≤ radius)

/-- Backend `getLocationsInRadius`, as a function of the array produced by
`ambulanceLocations.toArray()`. -/
noncomputable def getLocationsInRadius (center : Coordinates) (radius : ℝ)
    (records : List (String × AmbulanceLocation)) : List AmbulanceLocation :=
  ((records.filter (inRadius center radius)).map (fun r => r.2))

/-- The comparison relation the sort of `getSortedLocationsInRadius` uses:
`Float.compare` on the two distances to the centre (no other component is
consulted). -/
noncomputable def distLE (center : Coordinates) (a b : String × AmbulanceLocation) : Prop :=
  calculateDistance center a.2.coordinates ≤ calculateDistance center b.2.coordinates

noncomputable instance (center : Coordinates) : DecidableRel (distLE center) :=
  fun a b => Real.decidableLE _ _

/-- Backend `getSortedLocationsInRadius`: filter by radius, then sort by
distance to the centre (`Array.sort` is a stable sort, modelled by
`List.insertionSort`). -/
noncomputable def getSortedLocationsInRadius (center : Coordinates) (radius : ℝ)
    (records : List (String × AmbulanceLocation)) : List AmbulanceLocation :=
  let locationsInRadius := records.filter (inRadius center radius)
  let sorted := List.insertionSort (distLE center) locationsInRadius
  sorted.map (fun r => r.2)

/-- Backend `getLocationsCountInRadius`. -/
noncomputable def getLocationsCountInRadius (center : Coordinates) (radius : ℝ)
    (records : List (String × AmbulanceLocation)) : ℕ :=
  (records.filter (inRadius center radius)).length

/-- Comparison relation of the sort inside `triggerSOS`: `Float.compare` on
the third tuple component (the distance). -/
noncomputable def sosDistLE (a b : String × PoliceLocation × ℝ) : Prop :=
  a.2.2 ≤ b.2.2

noncomputable instance : DecidableRel sosDistLE :=
  fun a b => Real.decidableLE _ _

/-- The target-selection computation of `triggerSOS` (lines 318-346 of the
actor): filter the police array to the 0.05 km radius, pair with distances,
sort ascending by distance, keep the first `min 2 size` entries, project the
ids.  There is no staleness test anywhere in this computation. -/
noncomputable def computeTargetPolice (coordinates : Coordinates)
    (allPolice : List (String × PoliceLocation)) : List String :=
  let radius : ℝ := 0.05
  let policeWithinRadius := allPolice.filter
    (fun p => decide (calculateDistance coordinates p.2.coordinates ≤ radius))
  let policeWithDistances := policeWithinRadius.map
    (fun p => (p.1, p.2, calculateDistance coordinates p.2.coordinates))
  let sortedList := List.insertionSort sosDistLE policeWithDistances
  let filteredList := sortedList.take (min 2 sortedList.length)
  filteredList.map (fun t => t.1)

/-- Backend `triggerSOS`. -/
noncomputable def triggerSOS (hasPerm : Bool) (s : BackendState) (caller : String)
    (coordinates : Coordinates) (now : ℤ) : Option BackendState :=
  if !hasPerm then none
  else if !(isAmbulance s caller) then none
  else
    let targetPolice := computeTargetPolice coordinates s.policeLocations
    some { s with sosAlerts := (kvAdd caller ⟨caller, coordinates, now, true, targetPolice⟩
      s.sosAlerts) }

/-- Backend `deactivateSOS`: rebuilds the stored alert with `active = false`
and every other field copied. -/
def deactivateSOS (hasPerm : Bool) (s : BackendState) (caller : String) :
    Option BackendState :=
  if !hasPerm then none
  else
    match kvGet caller s.sosAlerts with
    | some alert =>
      if alert.ambulanceId ≠ caller then none
      else
        some { s with sosAlerts := (kvAdd caller
          { ambulanceId := alert.ambulanceId, coordinates := alert.coordinates,
            timestamp := alert.timestamp, active := false,
            targetPolice := alert.targetPolice } s.sosAlerts) }
    | none => none

/-! Frontend conditioning pipeline (`GPS_CONFIG` and the functions below it). -/

/-- `GPS_CONFIG.MAX_ACCURACY_METERS`. -/
def MAX_ACCURACY_METERS : ℝ := 50

/-- `GPS_CONFIG.MAX_JUMP_METERS`. -/
def MAX_JUMP_METERS : ℝ := 200

/-- `GPS_CONFIG.MIN_TIME_BETWEEN_FIXES` (milliseconds). -/
def MIN_TIME_BETWEEN_FIXES : ℝ := 500

/-- `GPS_CONFIG.DISPLAY.MOVEMENT_THRESHOLD_METERS`. -/
def DISPLAY_MOVEMENT_THRESHOLD_METERS : ℝ := 5

/-- `GPS_CONFIG.DISPLAY.SMOOTHING_ALPHA`. -/
def DISPLAY_SMOOTHING_ALPHA : ℝ := 0.3

/-- `GPS_CONFIG.BACKEND.MOVEMENT_THRESHOLD_METERS`. -/
def BACKEND_MOVEMENT_THRESHOLD_METERS : ℝ := 8

/-- `GPS_CONFIG.BACKEND.SMOOTHING_ALPHA`. -/
def BACKEND_SMOOTHING_ALPHA : ℝ := 0.2

/-- Result statuses of `processBackendUpdate` (strings initial, held and
smoothed in the source). -/
inductive FixStatus where
  | initial
  | held
  | smoothed
  deriving DecidableEq

/-- Frontend `BackendUpdateState` (per-entity conditioning state). -/
structure BackendUpdateState where
  lat : ℝ
  lng : ℝ
  lastRawLat : ℝ
  lastRawLng : ℝ
  lastUpdateTime : ℝ

/-- The accuracy gate condition of `processBackendUpdate`, line 262:
`accuracy !== undefined && accuracy > GPS_CONFIG.MAX_ACCURACY_METERS`. -/
noncomputable def accuracyRejected (accuracy : Option ℝ) : Bool :=
  match accuracy with
  | some a => decide (a > MAX_ACCURACY_METERS)
  | none => false

/-- Frontend `processBackendUpdate`.  `Date.now()` enters as `now`; both
`return null` sites (poor accuracy, implausible jump) are `none`. -/
noncomputable def processBackendUpdate (newLat newLng : ℝ) (accuracy : Option ℝ)
    (previous : Option BackendUpdateState) (now : ℝ) :
    Option (Coordinates × FixStatus) :=
  if accuracyRejected accuracy then none
  else
    match previous with
    | none => some (⟨newLat, newLng⟩, .initial)
    | some prev =>
      let distanceKm := haversineDistance prev.lastRawLat prev.lastRawLng newLat newLng
      let distanceMeters := distanceKm * 1000
      let timeDelta := now - prev.lastUpdateTime
      if distanceMeters > MAX_JUMP_METERS ∧ timeDelta < MIN_TIME_BETWEEN_FIXES then
        none
      else if distanceMeters < BACKEND_MOVEMENT_THRESHOLD_METERS then
        some (⟨prev.lat, prev.lng⟩, .held)
      else
        some (⟨prev.lat + BACKEND_SMOOTHING_ALPHA * (newLat - prev.lat),
               prev.lng + BACKEND_SMOOTHING_ALPHA * (newLng - prev.lng)⟩, .smoothed)

/-- Frontend `updateBackendState` (its `previous` argument is unused in the
source as well). -/
def updateBackendState (newLat newLng smoothedLat smoothedLng : ℝ)
    (previous : Option BackendUpdateState) (now : ℝ) : BackendUpdateState :=
  { lat := smoothedLat
    lng := smoothedLng
    lastRawLat := newLat
    lastRawLng := newLng
    lastUpdateTime := now }

/-- Conditioning step of the `watchPosition` callback (AmbulanceInterface /
PoliceInterface): run `processBackendUpdate`; on rejection return early,
leaving `backendStateRef` unchanged; on success commit `updateBackendState`. -/
noncomputable def conditionStep (newLat newLng : ℝ) (accuracy : Option ℝ)
    (st : Option BackendUpdateState) (now : ℝ) :
    Option BackendUpdateState × Option (Coordinates × FixStatus) :=
  match processBackendUpdate newLat newLng accuracy st now with
  | none => (st, none)
  | some (c, status) =>
    (some (updateBackendState newLat newLng c.latitude c.longitude st now),
     some (c, status))

/-- Frontend `SmoothedCoordinate` (display-profile state; the optional
`lastUpdateTime` of the source is modelled as always present). -/
structure SmoothedCoordinate where
  lat : ℝ
  lng : ℝ
  lastRawLat : ℝ
  lastRawLng : ℝ
  lastUpdateTime : ℝ

/-- Frontend `smoothCoordinate` (display profile, alpha 0.3). -/
noncomputable def smoothCoordinate (newLat newLng : ℝ)
    (previous : Option SmoothedCoordinate) (now : ℝ) : SmoothedCoordinate :=
  match previous with
  | none => ⟨newLat, newLng, newLat, newLng, now⟩
  | some prev =>
    let distanceKm := haversineDistance prev.lastRawLat prev.lastRawLng newLat newLng
    let distanceMeters := distanceKm * 1000
    if distanceMeters < DISPLAY_MOVEMENT_THRESHOLD_METERS then
      { prev with lastRawLat := newLat, lastRawLng := newLng, lastUpdateTime := now }
    else
      ⟨prev.lat + DISPLAY_SMOOTHING_ALPHA * (newLat - prev.lat),
       prev.lng + DISPLAY_SMOOTHING_ALPHA * (newLng - prev.lng),
       newLat, newLng, now⟩

/-! Concrete sample data used by witnesses and counterexamples. -/

/-- A profile with the ambulance role. -/
def ambProfile : UserProfile :=
  { name := "Amb", phoneNumber := "0123456789", role := .ambulance }

/-- A profile with the police role. -/
def polProfile : UserProfile :=
  { name := "Pol", phoneNumber := "0123456789", role := .police }

/-- An active sample alert stored for ambulance `"amb"`. -/
noncomputable def sampleAlert : SOSAlert :=
  { ambulanceId := "amb", coordinates := ⟨10, 20⟩, timestamp := 5,
    active := true, targetPolice := ["pol"] }

/-- A backend state with one ambulance, one police officer and one stored
active alert. -/
noncomputable def sampleState : BackendState :=
  { userProfiles := [("amb", ambProfile), ("pol", polProfile)]
    ambulanceLocations := []
    policeLocations := []
    sosAlerts := [("amb", sampleAlert)] }

/-- The conditioning run of the convergence claim: start with accepted and
raw coordinate at the origin, then feed the identical fix (0, 1) with unknown
accuracy every 1000 ms. -/
noncomputable def c8run : ℕ → Option BackendUpdateState
  | 0 => some ⟨0, 0, 0, 0, 0⟩
  | n + 1 => (conditionStep 0 1 none (c8run n) (1000 * ((n : ℝ) + 1))).1

/-- Distance (km) from the accepted coordinate of the run to the raw fix (0, 1). -/
noncomputable def c8dist (n : ℕ) : ℝ :=
  match c8run n with
  | some s => haversineDistance s.lat s.lng 0 1
  | none => 0

/-! Helper lemmas about the distance engine. -/

theorem arctan2_zero_one : arctan2 0 1 = 0 := by
  unfold arctan2
  rw [if_pos (by norm_num : (0 : ℝ) < 1)]
  simp [Real.arctan_zero]

/-- For a first-quadrant point on the unit circle below the diagonal of the
`y`-axis, `arctan2` recovers the angle. -/
theorem arctan2_sin_cos {u : ℝ} (h0 : 0 ≤ u) (h1 : u < Real.pi / 2) :
    arctan2 (Real.sin u) (Real.cos u) = u := by
  have hcos : 0 < Real.cos u := by
    apply Real.cos_pos_of_mem_Ioo
    constructor
    · linarith [Real.pi_pos]
    · exact h1
  unfold arctan2
  rw [if_pos hcos, ← Real.tan_eq_sin_div_cos, Real.arctan_tan]
  · linarith [Real.pi_pos]
  · exact h1

theorem calculateDistance_self (c : Coordinates) : calculateDistance c c = 0 := by
  simp [calculateDistance, deg2rad, sub_self, Real.sin_zero, Real.sqrt_zero,
    Real.sqrt_one, arctan2_zero_one]

theorem calculateDistance_symm (a b : Coordinates) :
    calculateDistance a b = calculateDistance b a := by
  have hsin : ∀ x y : ℝ,
      Real.sin (deg2rad (x - y) / 2) ^ 2 = Real.sin (deg2rad (y - x) / 2) ^ 2 := by
    intro x y
    have h : deg2rad (x - y) / 2 = -(deg2rad (y - x) / 2) := by
      unfold deg2rad; ring
    rw [h, Real.sin_neg, neg_sq]
  simp only [calculateDistance]
  rw [hsin b.latitude a.latitude, hsin b.longitude a.longitude,
    mul_comm (Real.cos (deg2rad a.latitude)) (Real.cos (deg2rad b.latitude))]

theorem haversineDistance_self (lat lng : ℝ) : haversineDistance lat lng lat lng = 0 := by
  simp [haversineDistance, deg2radF, sub_self, Real.sin_zero, Real.sqrt_zero,
    Real.sqrt_one, arctan2_zero_one]

theorem haversineDistance_symm (lat1 lon1 lat2 lon2 : ℝ) :
    haversineDistance lat1 lon1 lat2 lon2 = haversineDistance lat2 lon2 lat1 lon1 := by
  have hsin : ∀ x y : ℝ,
      Real.sin (deg2radF (x - y) / 2) * Real.sin (deg2radF (x - y) / 2) =
        Real.sin (deg2radF (y - x) / 2) * Real.sin (deg2radF (y - x) / 2) := by
    intro x y
    have h : deg2radF (x - y) / 2 = -(deg2radF (y - x) / 2) := by
      unfold deg2radF; ring
    rw [h, Real.sin_neg]; ring
  simp only [haversineDistance]
  rw [hsin lat2 lat1, hsin lon2 lon1,
    mul_comm (Real.cos (deg2radF lat1)) (Real.cos (deg2radF lat2))]

/-- Closed form of the frontend Haversine distance along the equator:
for longitudes `l1 ≤ l2` whose half-angle stays below `π/2`, the distance is
`6371 · (l2 - l1) · π / 180`. -/
theorem haversineDistance_equator (l1 l2 : ℝ) (h0 : l1 ≤ l2)
    (h1 : (l2 - l1) * (Real.pi / 180) / 2 < Real.pi / 2) :
    haversineDistance 0 l1 0 l2 = 6371 * ((l2 - l1) * (Real.pi / 180)) := by
  have hu0 : 0 ≤ (l2 - l1) * (Real.pi / 180) / 2 := by
    have := Real.pi_pos
    have h2 : 0 ≤ l2 - l1 := by linarith
    positivity
  set u := (l2 - l1) * (Real.pi / 180) / 2 with hu
  have hsin0 : 0 ≤ Real.sin u := by
    apply Real.sin_nonneg_of_nonneg_of_le_pi hu0
    have := Real.pi_pos
    linarith
  have hcos0 : 0 ≤ Real.cos u := by
    apply Real.cos_nonneg_of_mem_Icc
    constructor
    · have := Real.pi_pos; linarith
    · linarith
  simp only [haversineDistance, deg2radF, EARTH_RADIUS_KM]
  rw [sub_self, zero_mul, zero_div, Real.sin_zero, mul_zero, Real.cos_zero]
  have ha : Real.sin ((l2 - l1) * (Real.pi / 180) / 2) *
      Real.sin ((l2 - l1) * (Real.pi / 180) / 2) = Real.sin u * Real.sin u := by
    rw [hu]
  have hsq : Real.sqrt (Real.sin u * Real.sin u) = Real.sin u :=
    Real.sqrt_mul_self hsin0
  have hone : (1 : ℝ) - Real.sin u * Real.sin u = Real.cos u * Real.cos u := by
    have := Real.sin_sq_add_cos_sq u
    nlinarith [this]
  rw [zero_add, one_mul, one_mul, ha, hsq, hone, Real.sqrt_mul_self hcos0,
    arctan2_sin_cos hu0 h1]
  rw [hu]; ring

/-! Keyed-store lemmas. -/

theorem kvGet_kvAdd_self {V : Type} (k : String) (v : V) (m : List (String × V)) :
    kvGet k (kvAdd k v m) = some v := by
  induction m with
  | nil => simp [kvGet, kvAdd]
  | cons hd tl ih =>
    obtain ⟨k1, v1⟩ := hd
    by_cases h : k = k1
    · simp [kvGet, kvAdd, h]
    · simp [kvGet, kvAdd, h, ih]

theorem kvGet_kvAdd_ne {V : Type} (k k1 : String) (v : V) (m : List (String × V))
    (h : k1 ≠ k) : kvGet k1 (kvAdd k v m) = kvGet k1 m := by
  induction m with
  | nil => simp [kvGet, kvAdd, h]
  | cons hd tl ih =>
    obtain ⟨k2, v2⟩ := hd
    by_cases h2 : k = k2
    · subst h2
      simp [kvGet, kvAdd, h]
    · by_cases h3 : k1 = k2
      · simp [kvGet, kvAdd, h2, h3]
      · simp [kvGet, kvAdd, h2, h3, ih]

/-! Claim theorems. -/

/-- C7: the three radius-query shapes agree on one membership predicate:
the count-only query equals the length of the raw in-radius list, and the
sorted query returns exactly the same records as the raw query, as a
permutation. -/
theorem c7_query_shapes_agree (center : Coordinates) (radius : ℝ)
    (records : List (String × AmbulanceLocation)) :
    getLocationsCountInRadius center radius records =
      (getLocationsInRadius center radius records).length ∧
    (getSortedLocationsInRadius center radius records).Perm
      (getLocationsInRadius center radius records) := by
  constructor
  · simp [getLocationsCountInRadius, getLocationsInRadius]
  · exact (List.perm_insertionSort (distLE center) _).map _

/-- C5 (amended): the output of `getSortedLocationsInRadius` is sorted
non-decreasing by distance to the centre.  (The comparator consults only the
distances, so no entity-id tie-break exists: ties keep the input order of
the record array; see the counterexample.) -/
theorem c5_sorted_by_distance (center : Coordinates) (radius : ℝ)
    (records : List (String × AmbulanceLocation)) :
    List.Sorted
      (fun x y : AmbulanceLocation =>
        calculateDistance center x.coordinates ≤ calculateDistance center y.coordinates)
      (getSortedLocationsInRadius center radius records) := by
  haveI : IsTotal (String × AmbulanceLocation) (distLE center) :=
    ⟨fun _ _ => le_total _ _⟩
  haveI : IsTrans (String × AmbulanceLocation) (distLE center) :=
    ⟨fun _ _ _ => le_trans⟩
  unfold getSortedLocationsInRadius
  rw [List.Sorted, List.pairwise_map]
  exact List.sorted_insertionSort (distLE center) _

/-- C5 is refuted as stated: two records at the identical coordinate (hence
at equal distance from the centre) supplied in the order `"b"`, `"a"` come
out of `getSortedLocationsInRadius` still in the order `"b"`, `"a"`, although
`"a" < "b"` lexicographically — the sort breaks no ties by entity id. -/
theorem c5_counterexample :
    getSortedLocationsInRadius ⟨0, 0⟩ 1
        [("b", ⟨"b", ⟨0, 0⟩, 0⟩), ("a", ⟨"a", ⟨0, 0⟩, 0⟩)] =
      [⟨"b", ⟨0, 0⟩, 0⟩, ⟨"a", ⟨0, 0⟩, 0⟩] ∧
    calculateDistance ⟨0, 0⟩ (⟨0, 0⟩ : Coordinates) = 0 ∧
    ("a" : String) < "b" := by
  refine ⟨?_, calculateDistance_self _, by simp [String.lt_iff_toList_lt]; decide⟩
  have hinB : inRadius ⟨0, 0⟩ 1 ("b", ⟨"b", ⟨0, 0⟩, 0⟩) = true := by
    simp [inRadius, calculateDistance_self]
  have hinA : inRadius ⟨0, 0⟩ 1 ("a", ⟨"a", ⟨0, 0⟩, 0⟩) = true := by
    simp [inRadius, calculateDistance_self]
  unfold getSortedLocationsInRadius
  simp only [List.filter, hinB, hinA]
  simp only [List.insertionSort, List.orderedInsert]
  rw [if_pos (by simp [distLE, calculateDistance_self] : distLE ⟨0, 0⟩
    ("b", ⟨"b", ⟨0, 0⟩, 0⟩) ("a", ⟨"a", ⟨0, 0⟩, 0⟩))]
  simp

/-- C9: both distance engines (backend `calculateDistance` and frontend
`haversineDistance`) are symmetric in their two coordinates and evaluate to 0
on identical coordinates, for coordinates within the valid ranges. -/
theorem c9_distance_symm_self (a b : Coordinates)
    (ha : validCoordinates a) (hb : validCoordinates b) :
    (calculateDistance a b = calculateDistance b a ∧ calculateDistance a a = 0) ∧
    (haversineDistance a.latitude a.longitude b.latitude b.longitude =
        haversineDistance b.latitude b.longitude a.latitude a.longitude ∧
      haversineDistance a.latitude a.longitude a.latitude a.longitude = 0) :=
  ⟨⟨calculateDistance_symm a b, calculateDistance_self a⟩,
   ⟨haversineDistance_symm _ _ _ _, haversineDistance_self _ _⟩⟩

/-- Witness for C9 at the concrete coordinates (0, 0) and (45, 90). -/
theorem c9_witness :
    validCoordinates ⟨0, 0⟩ ∧ validCoordinates ⟨45, 90⟩ ∧
    ((calculateDistance ⟨0, 0⟩ ⟨45, 90⟩ = calculateDistance ⟨45, 90⟩ ⟨0, 0⟩ ∧
        calculateDistance ⟨0, 0⟩ ⟨0, 0⟩ = 0) ∧
      (haversineDistance 0 0 45 90 = haversineDistance 45 90 0 0 ∧
        haversineDistance 0 0 0 0 = 0)) := by
  have h1 : validCoordinates ⟨0, 0⟩ := by norm_num [validCoordinates]
  have h2 : validCoordinates ⟨45, 90⟩ := by norm_num [validCoordinates]
  exact ⟨h1, h2, c9_distance_symm_self ⟨0, 0⟩ ⟨45, 90⟩ h1 h2⟩

/-- Evaluation of the `triggerSOS` target selection on a single candidate at
the alert origin itself. -/
theorem computeTargetPolice_single :
    computeTargetPolice ⟨0, 0⟩ [("p", ⟨"p", ⟨0, 0⟩, 0⟩)] = ["p"] := by
  have h : decide (calculateDistance ⟨0, 0⟩ ((⟨"p", ⟨0, 0⟩, 0⟩ :
      PoliceLocation)).coordinates ≤ (0.05 : ℝ)) = true := by
    simp [calculateDistance_self]
    norm_num
  unfold computeTargetPolice
  simp [List.filter, h, List.insertionSort, List.orderedInsert]

/-- C1 is refuted as stated: `triggerSOS` applies no staleness test at all.
A candidate at the alert origin whose location record is 20 s old at `now`
with a 15 s staleness threshold (the scenario given in the spec) is still selected
as a target. -/
theorem c1_counterexample :
    computeTargetPolice ⟨0, 0⟩ [("p", ⟨"p", ⟨0, 0⟩, 0⟩)] = ["p"] ∧
    (20 : ℤ) - ((⟨"p", ⟨0, 0⟩, 0⟩ : PoliceLocation)).timestamp > 15 :=
  ⟨computeTargetPolice_single, by norm_num⟩

/-- C1 (amended): the target set computed by `triggerSOS` has at most two
entries, and every selected id belongs to a candidate whose distance from
the alert origin is at most 0.05 km; no staleness filtering is applied, so
records of any age are eligible. -/
theorem c1_nearest_k (coordinates : Coordinates)
    (allPolice : List (String × PoliceLocation)) :
    (computeTargetPolice coordinates allPolice).length ≤ 2 ∧
    ∀ i ∈ computeTargetPolice coordinates allPolice, ∃ loc : PoliceLocation,
      (i, loc) ∈ allPolice ∧ calculateDistance coordinates loc.coordinates ≤ 0.05 := by
  constructor
  · unfold computeTargetPolice
    simp only [List.length_map, List.length_take]
    exact le_trans (min_le_left _ _) (min_le_left _ _)
  · intro i hi
    unfold computeTargetPolice at hi
    simp only [List.mem_map] at hi
    obtain ⟨t, ht, rfl⟩ := hi
    have ht2 := List.mem_of_mem_take ht
    have ht3 := ((List.perm_insertionSort sosDistLE _).mem_iff).1 ht2
    simp only [List.mem_map] at ht3
    obtain ⟨p, hp, rfl⟩ := ht3
    have hp2 := List.mem_filter.1 hp
    exact ⟨p.2, hp2.1, of_decide_eq_true hp2.2⟩

/-- Witness for C1 at a single candidate at the alert origin: it is selected
and its distance bound holds. -/
theorem c1_witness :
    ("p" ∈ computeTargetPolice ⟨0, 0⟩ [("p", ⟨"p", ⟨0, 0⟩, 0⟩)]) ∧
    ∃ loc : PoliceLocation,
      ("p", loc) ∈ [("p", (⟨"p", ⟨0, 0⟩, 0⟩ : PoliceLocation))] ∧
      calculateDistance ⟨0, 0⟩ loc.coordinates ≤ 0.05 := by
  have hm : "p" ∈ computeTargetPolice ⟨0, 0⟩ [("p", ⟨"p", ⟨0, 0⟩, 0⟩)] := by
    rw [computeTargetPolice_single]
    simp
  exact ⟨hm, (c1_nearest_k ⟨0, 0⟩ [("p", ⟨"p", ⟨0, 0⟩, 0⟩)]).2 "p" hm⟩

/-- C2: alert snapshots are immutable.  `deactivateSOS` stores an alert that
differs from the stored one only in `active` (it preserves `ambulanceId`,
`coordinates`, `timestamp` and `targetPolice`) and leaves every other alert
and store untouched, and `updatePoliceLocation` leaves the alert store
entirely unchanged. -/
theorem c2_snapshot_immutable :
    (∀ (hp : Bool) (s : BackendState) (caller : String) (s2 : BackendState)
        (alert : SOSAlert),
        deactivateSOS hp s caller = some s2 →
        kvGet caller s.sosAlerts = some alert →
        kvGet caller s2.sosAlerts =
          some { ambulanceId := alert.ambulanceId, coordinates := alert.coordinates,
                 timestamp := alert.timestamp, active := false,
                 targetPolice := alert.targetPolice } ∧
        (∀ k, k ≠ caller → kvGet k s2.sosAlerts = kvGet k s.sosAlerts) ∧
        s2.ambulanceLocations = s.ambulanceLocations ∧
        s2.policeLocations = s.policeLocations) ∧
    (∀ (hp : Bool) (s : BackendState) (caller : String) (coords : Coordinates)
        (now : ℤ) (s2 : BackendState),
        updatePoliceLocation hp s caller coords now = some s2 →
        s2.sosAlerts = s.sosAlerts) := by
  constructor
  · intro hp s caller s2 alert h hget
    cases hp with
    | false => simp [deactivateSOS] at h
    | true =>
      unfold deactivateSOS at h
      rw [hget] at h
      simp only [Bool.not_true] at h
      rw [if_neg (by simp)] at h
      split at h
      · exact absurd h (by simp)
      · obtain rfl := (Option.some.inj h).symm
        refine ⟨kvGet_kvAdd_self _ _ _, fun k hk => kvGet_kvAdd_ne _ _ _ _ hk, rfl, rfl⟩
  · intro hp s caller coords now s2 h
    cases hp with
    | false => simp [updatePoliceLocation] at h
    | true =>
      unfold updatePoliceLocation at h
      cases hrole : isPolice s caller with
      | false => rw [hrole] at h; simp at h
      | true =>
        rw [hrole] at h
        simp only [Bool.not_true] at h
        rw [if_neg (by simp), if_neg (by simp)] at h
        obtain rfl := (Option.some.inj h).symm
        rfl

/-- Witness for C2 on the sample state: deactivating the stored alert of
`"amb"` preserves every snapshot field except `active`, and a police
location update leaves the alert store unchanged. -/
theorem c2_witness :
    (∃ s2, deactivateSOS true sampleState "amb" = some s2 ∧
      kvGet "amb" s2.sosAlerts =
        some { ambulanceId := "amb", coordinates := ⟨10, 20⟩, timestamp := 5,
               active := false, targetPolice := ["pol"] } ∧
      (∀ k, k ≠ "amb" → kvGet k s2.sosAlerts = kvGet k sampleState.sosAlerts)) ∧
    (∃ s3, updatePoliceLocation true sampleState "pol" ⟨1, 2⟩ 9 = some s3 ∧
      s3.sosAlerts = sampleState.sosAlerts) := by
  have hget : kvGet "amb" sampleState.sosAlerts = some sampleAlert := rfl
  have h1 : deactivateSOS true sampleState "amb" =
      some { sampleState with sosAlerts := (kvAdd "amb"
        { ambulanceId := "amb", coordinates := ⟨10, 20⟩, timestamp := 5,
          active := false, targetPolice := ["pol"] } sampleState.sosAlerts) } := rfl
  have h2 : updatePoliceLocation true sampleState "pol" ⟨1, 2⟩ 9 =
      some { sampleState with policeLocations := (kvAdd "pol" ⟨"pol", ⟨1, 2⟩, 9⟩
        sampleState.policeLocations) } := rfl
  constructor
  · refine ⟨_, h1, ?_⟩
    have := c2_snapshot_immutable.1 true sampleState "amb" _ sampleAlert h1 hget
    exact ⟨this.1, this.2.1⟩
  · exact ⟨_, h2, c2_snapshot_immutable.2 true sampleState "pol" ⟨1, 2⟩ 9 _ h2⟩

/-- C6 is refuted as stated: no coordinate-range validation exists anywhere
in the reviewed operations.  `updateAmbulanceLocation` with latitude 200
(out of range, since 200 > 90) succeeds and stores the coordinate verbatim
instead of raising a validation error. -/
theorem c6_counterexample :
    (200 : ℝ) > 90 ∧
    updateAmbulanceLocation true sampleState "amb" ⟨200, 0⟩ 7 =
      some { sampleState with ambulanceLocations := [("amb", ⟨"amb", ⟨200, 0⟩, 7⟩)] } :=
  ⟨by norm_num, rfl⟩

/-- C6 (amended): the coordinate-accepting operations perform no range
validation: for every coordinate, valid or not, they succeed (given the role
check) and store the coordinate exactly as supplied — it is never clamped
and never rejected. -/
theorem c6_no_validation (s : BackendState) (caller : String) (coords : Coordinates)
    (now : ℤ) :
    (isAmbulance s caller = true →
      ∃ s2, updateAmbulanceLocation true s caller coords now = some s2 ∧
        kvGet caller s2.ambulanceLocations = some ⟨caller, coords, now⟩) ∧
    (isPolice s caller = true →
      ∃ s2, updatePoliceLocation true s caller coords now = some s2 ∧
        kvGet caller s2.policeLocations = some ⟨caller, coords, now⟩) ∧
    (isAmbulance s caller = true →
      ∃ s2, triggerSOS true s caller coords now = some s2 ∧
        kvGet caller s2.sosAlerts =
          some ⟨caller, coords, now, true,
            computeTargetPolice coords s.policeLocations⟩) := by
  refine ⟨fun h => ?_, fun h => ?_, fun h => ?_⟩
  · refine ⟨{ s with ambulanceLocations := (kvAdd caller ⟨caller, coords, now⟩
      s.ambulanceLocations) }, ?_, kvGet_kvAdd_self _ _ _⟩
    simp [updateAmbulanceLocation, h]
  · refine ⟨{ s with policeLocations := (kvAdd caller ⟨caller, coords, now⟩
      s.policeLocations) }, ?_, kvGet_kvAdd_self _ _ _⟩
    simp [updatePoliceLocation, h]
  · refine ⟨{ s with sosAlerts := (kvAdd caller ⟨caller, coords, now, true,
      computeTargetPolice coords s.policeLocations⟩ s.sosAlerts) }, ?_,
      kvGet_kvAdd_self _ _ _⟩
    simp [triggerSOS, h]

/-- Witness for C6: the sample ambulance stores the out-of-range latitude
200 verbatim. -/
theorem c6_witness :
    isAmbulance sampleState "amb" = true ∧
    ∃ s2, updateAmbulanceLocation true sampleState "amb" ⟨200, 0⟩ 7 = some s2 ∧
      kvGet "amb" s2.ambulanceLocations = some ⟨"amb", ⟨200, 0⟩, 7⟩ :=
  ⟨rfl, (c6_no_validation sampleState "amb" ⟨200, 0⟩ 7).1 rfl⟩

/-! Branch lemmas for `processBackendUpdate`. -/

theorem pbu_accuracy (newLat newLng : ℝ) (accuracy : Option ℝ)
    (previous : Option BackendUpdateState) (now : ℝ)
    (h : accuracyRejected accuracy = true) :
    processBackendUpdate newLat newLng accuracy previous now = none := by
  unfold processBackendUpdate
  rw [h]
  simp

theorem pbu_first (newLat newLng : ℝ) (accuracy : Option ℝ) (now : ℝ)
    (h : accuracyRejected accuracy = false) :
    processBackendUpdate newLat newLng accuracy none now =
      some (⟨newLat, newLng⟩, FixStatus.initial) := by
  unfold processBackendUpdate
  rw [h]
  simp

theorem pbu_outlier (newLat newLng : ℝ) (accuracy : Option ℝ)
    (prev : BackendUpdateState) (now : ℝ)
    (hacc : accuracyRejected accuracy = false)
    (hout : haversineDistance prev.lastRawLat prev.lastRawLng newLat newLng * 1000 >
        MAX_JUMP_METERS ∧
      now - prev.lastUpdateTime < MIN_TIME_BETWEEN_FIXES) :
    processBackendUpdate newLat newLng accuracy (some prev) now = none := by
  unfold processBackendUpdate
  rw [hacc, if_neg Bool.false_ne_true]
  show (if haversineDistance prev.lastRawLat prev.lastRawLng newLat newLng * 1000 >
        MAX_JUMP_METERS ∧ now - prev.lastUpdateTime < MIN_TIME_BETWEEN_FIXES then none
      else if haversineDistance prev.lastRawLat prev.lastRawLng newLat newLng * 1000 <
        BACKEND_MOVEMENT_THRESHOLD_METERS then
        some (Coordinates.mk prev.lat prev.lng, FixStatus.held)
      else
        some (Coordinates.mk (prev.lat + BACKEND_SMOOTHING_ALPHA * (newLat - prev.lat))
            (prev.lng + BACKEND_SMOOTHING_ALPHA * (newLng - prev.lng)),
          FixStatus.smoothed)) = none
  rw [if_pos hout]

theorem pbu_held (newLat newLng : ℝ) (accuracy : Option ℝ)
    (prev : BackendUpdateState) (now : ℝ)
    (hacc : accuracyRejected accuracy = false)
    (hout : ¬ (haversineDistance prev.lastRawLat prev.lastRawLng newLat newLng * 1000 >
        MAX_JUMP_METERS ∧
      now - prev.lastUpdateTime < MIN_TIME_BETWEEN_FIXES))
    (hmov : haversineDistance prev.lastRawLat prev.lastRawLng newLat newLng * 1000 <
      BACKEND_MOVEMENT_THRESHOLD_METERS) :
    processBackendUpdate newLat newLng accuracy (some prev) now =
      some (Coordinates.mk prev.lat prev.lng, FixStatus.held) := by
  unfold processBackendUpdate
  rw [hacc, if_neg Bool.false_ne_true]
  show (if haversineDistance prev.lastRawLat prev.lastRawLng newLat newLng * 1000 >
        MAX_JUMP_METERS ∧ now - prev.lastUpdateTime < MIN_TIME_BETWEEN_FIXES then none
      else if haversineDistance prev.lastRawLat prev.lastRawLng newLat newLng * 1000 <
        BACKEND_MOVEMENT_THRESHOLD_METERS then
        some (Coordinates.mk prev.lat prev.lng, FixStatus.held)
      else
        some (Coordinates.mk (prev.lat + BACKEND_SMOOTHING_ALPHA * (newLat - prev.lat))
            (prev.lng + BACKEND_SMOOTHING_ALPHA * (newLng - prev.lng)),
          FixStatus.smoothed)) = some (Coordinates.mk prev.lat prev.lng, FixStatus.held)
  rw [if_neg hout, if_pos hmov]

theorem pbu_smoothed (newLat newLng : ℝ) (accuracy : Option ℝ)
    (prev : BackendUpdateState) (now : ℝ)
    (hacc : accuracyRejected accuracy = false)
    (hout : ¬ (haversineDistance prev.lastRawLat prev.lastRawLng newLat newLng * 1000 >
        MAX_JUMP_METERS ∧
      now - prev.lastUpdateTime < MIN_TIME_BETWEEN_FIXES))
    (hmov : ¬ (haversineDistance prev.lastRawLat prev.lastRawLng newLat newLng * 1000 <
      BACKEND_MOVEMENT_THRESHOLD_METERS)) :
    processBackendUpdate newLat newLng accuracy (some prev) now =
      some (⟨prev.lat + BACKEND_SMOOTHING_ALPHA * (newLat - prev.lat),
             prev.lng + BACKEND_SMOOTHING_ALPHA * (newLng - prev.lng)⟩,
        FixStatus.smoothed) := by
  unfold processBackendUpdate
  rw [hacc, if_neg Bool.false_ne_true]
  show (if haversineDistance prev.lastRawLat prev.lastRawLng newLat newLng * 1000 >
        MAX_JUMP_METERS ∧ now - prev.lastUpdateTime < MIN_TIME_BETWEEN_FIXES then none
      else if haversineDistance prev.lastRawLat prev.lastRawLng newLat newLng * 1000 <
        BACKEND_MOVEMENT_THRESHOLD_METERS then
        some (Coordinates.mk prev.lat prev.lng, FixStatus.held)
      else
        some (Coordinates.mk (prev.lat + BACKEND_SMOOTHING_ALPHA * (newLat - prev.lat))
            (prev.lng + BACKEND_SMOOTHING_ALPHA * (newLng - prev.lng)),
          FixStatus.smoothed)) =
      some (Coordinates.mk (prev.lat + BACKEND_SMOOTHING_ALPHA * (newLat - prev.lat))
            (prev.lng + BACKEND_SMOOTHING_ALPHA * (newLng - prev.lng)),
        FixStatus.smoothed)
  rw [if_neg hout, if_neg hmov]

theorem conditionStep_of_none (newLat newLng : ℝ) (accuracy : Option ℝ)
    (st : Option BackendUpdateState) (now : ℝ)
    (h : processBackendUpdate newLat newLng accuracy st now = none) :
    conditionStep newLat newLng accuracy st now = (st, none) := by
  unfold conditionStep
  rw [h]

theorem conditionStep_of_some (newLat newLng : ℝ) (accuracy : Option ℝ)
    (st : Option BackendUpdateState) (now : ℝ) (c : Coordinates) (fs : FixStatus)
    (h : processBackendUpdate newLat newLng accuracy st now = some (c, fs)) :
    conditionStep newLat newLng accuracy st now =
      (some ⟨c.latitude, c.longitude, newLat, newLng, now⟩, some (c, fs)) := by
  unfold conditionStep
  rw [h]
  rfl

theorem pbu_none_inv (newLat newLng : ℝ) (accuracy : Option ℝ)
    (prev : Option BackendUpdateState) (now : ℝ)
    (hacc : accuracyRejected accuracy = false)
    (h : processBackendUpdate newLat newLng accuracy prev now = none) :
    ∃ p, prev = some p ∧
      haversineDistance p.lastRawLat p.lastRawLng newLat newLng * 1000 >
        MAX_JUMP_METERS ∧
      now - p.lastUpdateTime < MIN_TIME_BETWEEN_FIXES := by
  cases prev with
  | none =>
    rw [pbu_first newLat newLng accuracy now hacc] at h
    exact absurd h (by simp)
  | some p =>
    by_cases hout : haversineDistance p.lastRawLat p.lastRawLng newLat newLng * 1000 >
        MAX_JUMP_METERS ∧ now - p.lastUpdateTime < MIN_TIME_BETWEEN_FIXES
    · exact ⟨p, rfl, hout⟩
    · by_cases hmov : haversineDistance p.lastRawLat p.lastRawLng newLat newLng * 1000 <
        BACKEND_MOVEMENT_THRESHOLD_METERS
      · rw [pbu_held newLat newLng accuracy p now hacc hout hmov] at h
        exact absurd h (by simp)
      · rw [pbu_smoothed newLat newLng accuracy p now hacc hout hmov] at h
        exact absurd h (by simp)

/-- C3 is refuted as stated: the accuracy gate runs before the first-fix
check, so a first fix with reported accuracy 100 m (above the 50 m maximum)
is rejected (`none`) instead of being returned as `initial`. -/
theorem c3_counterexample :
    processBackendUpdate 0 0 (some 100) none 0 = none ∧
    (100 : ℝ) > MAX_ACCURACY_METERS := by
  have h : accuracyRejected (some 100) = true := by
    simp only [accuracyRejected, MAX_ACCURACY_METERS, decide_eq_true_eq]
    norm_num
  exact ⟨pbu_accuracy 0 0 (some 100) none 0 h, by norm_num [MAX_ACCURACY_METERS]⟩

/-- C3 (amended): on the first fix for an entity (no previous conditioning
state), `processBackendUpdate` returns `initial` with the input coordinate
unchanged, provided the accuracy gate passes (accuracy unknown or at most
the configured maximum); a first fix failing the accuracy gate is rejected. -/
theorem c3_first_fix (newLat newLng : ℝ) (accuracy : Option ℝ) (now : ℝ)
    (h : accuracyRejected accuracy = false) :
    processBackendUpdate newLat newLng accuracy none now =
      some (⟨newLat, newLng⟩, FixStatus.initial) :=
  pbu_first newLat newLng accuracy now h

/-- Witness for C3: a first fix at (3, 4) with accuracy 30 m is accepted
verbatim as `initial`. -/
theorem c3_witness :
    accuracyRejected (some 30) = false ∧
    processBackendUpdate 3 4 (some 30) none 0 =
      some (⟨3, 4⟩, FixStatus.initial) := by
  have h : accuracyRejected (some 30) = false := by
    simp only [accuracyRejected, MAX_ACCURACY_METERS, decide_eq_false_iff_not]
    norm_num
  exact ⟨h, c3_first_fix 3 4 (some 30) 0 h⟩

/-- C4: a fix whose known accuracy exceeds the 50 m maximum is rejected
regardless of the previous state and displacement, and the calling step
leaves the conditioning state unchanged; a fix with absent accuracy is never
rejected by the accuracy gate — if it is rejected at all, the outlier gate
fired (jump above 200 m with less than 500 ms elapsed). -/
theorem c4_accuracy_gate :
    (∀ (newLat newLng a : ℝ) (prev : Option BackendUpdateState) (now : ℝ),
        a > MAX_ACCURACY_METERS →
        processBackendUpdate newLat newLng (some a) prev now = none ∧
        conditionStep newLat newLng (some a) prev now = (prev, none)) ∧
    accuracyRejected none = false ∧
    (∀ (newLat newLng : ℝ) (prev : Option BackendUpdateState) (now : ℝ),
        processBackendUpdate newLat newLng none prev now = none →
        ∃ p, prev = some p ∧
          haversineDistance p.lastRawLat p.lastRawLng newLat newLng * 1000 >
            MAX_JUMP_METERS ∧
          now - p.lastUpdateTime < MIN_TIME_BETWEEN_FIXES) := by
  refine ⟨fun newLat newLng a prev now ha => ?_, rfl,
    fun newLat newLng prev now h => pbu_none_inv newLat newLng none prev now rfl h⟩
  have hacc : accuracyRejected (some a) = true := by
    simp only [accuracyRejected, decide_eq_true_eq]
    exact ha
  have h1 := pbu_accuracy newLat newLng (some a) prev now hacc
  exact ⟨h1, conditionStep_of_none newLat newLng (some a) prev now h1⟩

/-- Witness for C4: accuracy 100 m is rejected with the state untouched, and
an unknown-accuracy rejection implies the outlier gate (instantiated on a
111 km jump within 100 ms). -/
theorem c4_witness :
    ((100 : ℝ) > MAX_ACCURACY_METERS ∧
      processBackendUpdate 1 2 (some 100) (some ⟨1, 2, 1, 2, 0⟩) 5 = none ∧
      conditionStep 1 2 (some 100) (some ⟨1, 2, 1, 2, 0⟩) 5 =
        (some ⟨1, 2, 1, 2, 0⟩, none)) ∧
    (processBackendUpdate 0 1 none (some ⟨0, 0, 0, 0, 0⟩) 100 = none ∧
      ∃ p, (some (⟨0, 0, 0, 0, 0⟩ : BackendUpdateState)) = some p ∧
        haversineDistance p.lastRawLat p.lastRawLng 0 1 * 1000 > MAX_JUMP_METERS ∧
        (100 : ℝ) - p.lastUpdateTime < MIN_TIME_BETWEEN_FIXES) := by
  have ha : (100 : ℝ) > MAX_ACCURACY_METERS := by norm_num [MAX_ACCURACY_METERS]
  have h1 := c4_accuracy_gate.1 1 2 100 (some ⟨1, 2, 1, 2, 0⟩) 5 ha
  have hjump : haversineDistance 0 0 0 1 * 1000 > MAX_JUMP_METERS := by
    rw [haversineDistance_equator 0 1 (by norm_num) (by nlinarith [Real.pi_pos])]
    simp only [MAX_JUMP_METERS]
    nlinarith [Real.pi_gt_three]
  have hrej : processBackendUpdate 0 1 none (some ⟨0, 0, 0, 0, 0⟩) 100 = none := by
    apply pbu_outlier 0 1 none ⟨0, 0, 0, 0, 0⟩ 100 rfl
    constructor
    · exact hjump
    · norm_num [MIN_TIME_BETWEEN_FIXES]
  exact ⟨⟨ha, h1.1, h1.2⟩, hrej, c4_accuracy_gate.2.2 0 1 (some ⟨0, 0, 0, 0, 0⟩) 100 hrej⟩

/-- The one-degree equatorial jump measures at least 100 km. -/
theorem hav01_lower : 100000 ≤ haversineDistance 0 0 0 1 * 1000 := by
  rw [haversineDistance_equator 0 1 (by norm_num) (by nlinarith [Real.pi_pos])]
  nlinarith [Real.pi_gt_three]

/-- The distance from the frozen accepted coordinate (0, 0.2) to the raw fix
(0, 1) is strictly positive. -/
theorem hav_02_1_pos : 0 < haversineDistance 0 0.2 0 1 := by
  rw [haversineDistance_equator 0.2 1 (by norm_num) (by nlinarith [Real.pi_pos])]
  nlinarith [Real.pi_pos]

/-- A convex combination with weight in [0, 1] stays between its
endpoints. -/
theorem convex_between (w p x : ℝ) (h0 : 0 ≤ w) (h1 : w ≤ 1) :
    min p x ≤ p + w * (x - p) ∧ p + w * (x - p) ≤ max p x := by
  rcases le_total p x with h | h
  · rw [min_eq_left h, max_eq_right h]
    constructor <;> nlinarith
  · rw [min_eq_right h, max_eq_left h]
    constructor <;> nlinarith

/-- C10: whenever `processBackendUpdate` returns `smoothed`, each output
component is the convex combination of the previous accepted value and the
raw value with the backend alpha 0.2; both smoothing alphas lie in [0, 1];
smoothed components therefore stay between their endpoints and inside the
valid ranges when both endpoints are in range, and the display-profile
`smoothCoordinate` behaves the same way with alpha 0.3. -/
theorem c10_smoothed_convex :
    (∀ (newLat newLng : ℝ) (accuracy : Option ℝ) (prev : BackendUpdateState)
        (now : ℝ) (c : Coordinates),
        processBackendUpdate newLat newLng accuracy (some prev) now =
          some (c, FixStatus.smoothed) →
        (c.latitude = prev.lat + BACKEND_SMOOTHING_ALPHA * (newLat - prev.lat) ∧
          c.longitude = prev.lng + BACKEND_SMOOTHING_ALPHA * (newLng - prev.lng)) ∧
        (min prev.lat newLat ≤ c.latitude ∧ c.latitude ≤ max prev.lat newLat) ∧
        (min prev.lng newLng ≤ c.longitude ∧ c.longitude ≤ max prev.lng newLng) ∧
        (-90 ≤ prev.lat → prev.lat ≤ 90 → -90 ≤ newLat → newLat ≤ 90 →
          -90 ≤ c.latitude ∧ c.latitude ≤ 90) ∧
        (-180 ≤ prev.lng → prev.lng ≤ 180 → -180 ≤ newLng → newLng ≤ 180 →
          -180 ≤ c.longitude ∧ c.longitude ≤ 180)) ∧
    (0 ≤ BACKEND_SMOOTHING_ALPHA ∧ BACKEND_SMOOTHING_ALPHA ≤ 1 ∧
      0 ≤ DISPLAY_SMOOTHING_ALPHA ∧ DISPLAY_SMOOTHING_ALPHA ≤ 1) ∧
    (∀ (newLat newLng : ℝ) (prev : SmoothedCoordinate) (now : ℝ),
        ¬ (haversineDistance prev.lastRawLat prev.lastRawLng newLat newLng * 1000 <
          DISPLAY_MOVEMENT_THRESHOLD_METERS) →
        (smoothCoordinate newLat newLng (some prev) now).lat =
          prev.lat + DISPLAY_SMOOTHING_ALPHA * (newLat - prev.lat) ∧
        (smoothCoordinate newLat newLng (some prev) now).lng =
          prev.lng + DISPLAY_SMOOTHING_ALPHA * (newLng - prev.lng) ∧
        min prev.lat newLat ≤ (smoothCoordinate newLat newLng (some prev) now).lat ∧
        (smoothCoordinate newLat newLng (some prev) now).lat ≤ max prev.lat newLat) := by
  have halpha : (0 : ℝ) ≤ BACKEND_SMOOTHING_ALPHA ∧ BACKEND_SMOOTHING_ALPHA ≤ 1 := by
    norm_num [BACKEND_SMOOTHING_ALPHA]
  have halphaD : (0 : ℝ) ≤ DISPLAY_SMOOTHING_ALPHA ∧ DISPLAY_SMOOTHING_ALPHA ≤ 1 := by
    norm_num [DISPLAY_SMOOTHING_ALPHA]
  refine ⟨?_, ⟨halpha.1, halpha.2, halphaD.1, halphaD.2⟩, ?_⟩
  · intro newLat newLng accuracy prev now c h
    cases hacc : accuracyRejected accuracy with
    | true =>
      rw [pbu_accuracy newLat newLng accuracy (some prev) now hacc] at h
      exact absurd h (by simp)
    | false =>
      by_cases hout : haversineDistance prev.lastRawLat prev.lastRawLng newLat newLng *
          1000 > MAX_JUMP_METERS ∧ now - prev.lastUpdateTime < MIN_TIME_BETWEEN_FIXES
      · rw [pbu_outlier newLat newLng accuracy prev now hacc hout] at h
        exact absurd h (by simp)
      · by_cases hmov : haversineDistance prev.lastRawLat prev.lastRawLng newLat newLng *
            1000 < BACKEND_MOVEMENT_THRESHOLD_METERS
        · rw [pbu_held newLat newLng accuracy prev now hacc hout hmov] at h
          simp at h
        · rw [pbu_smoothed newLat newLng accuracy prev now hacc hout hmov] at h
          have hc : Coordinates.mk
              (prev.lat + BACKEND_SMOOTHING_ALPHA * (newLat - prev.lat))
              (prev.lng + BACKEND_SMOOTHING_ALPHA * (newLng - prev.lng)) = c :=
            congrArg Prod.fst (Option.some.inj h)
          subst hc
          have hb1 := convex_between BACKEND_SMOOTHING_ALPHA prev.lat newLat
            halpha.1 halpha.2
          have hb2 := convex_between BACKEND_SMOOTHING_ALPHA prev.lng newLng
            halpha.1 halpha.2
          refine ⟨⟨rfl, rfl⟩, hb1, hb2, fun u1 u2 u3 u4 => ?_, fun u1 u2 u3 u4 => ?_⟩
          · exact ⟨le_trans (le_min u1 u3) hb1.1, le_trans hb1.2 (max_le u2 u4)⟩
          · exact ⟨le_trans (le_min u1 u3) hb2.1, le_trans hb2.2 (max_le u2 u4)⟩
  · intro newLat newLng prev now hmov
    have heval : smoothCoordinate newLat newLng (some prev) now =
        ⟨prev.lat + DISPLAY_SMOOTHING_ALPHA * (newLat - prev.lat),
         prev.lng + DISPLAY_SMOOTHING_ALPHA * (newLng - prev.lng),
         newLat, newLng, now⟩ := by
      unfold smoothCoordinate
      show (if haversineDistance prev.lastRawLat prev.lastRawLng newLat newLng * 1000 <
          DISPLAY_MOVEMENT_THRESHOLD_METERS then
          { prev with lastRawLat := newLat, lastRawLng := newLng, lastUpdateTime := now }
        else
          SmoothedCoordinate.mk
            (prev.lat + DISPLAY_SMOOTHING_ALPHA * (newLat - prev.lat))
            (prev.lng + DISPLAY_SMOOTHING_ALPHA * (newLng - prev.lng))
            newLat newLng now) = _
      rw [if_neg hmov]
    rw [heval]
    exact ⟨rfl, rfl,
      (convex_between DISPLAY_SMOOTHING_ALPHA prev.lat newLat halphaD.1 halphaD.2).1,
      (convex_between DISPLAY_SMOOTHING_ALPHA prev.lat newLat halphaD.1 halphaD.2).2⟩

/-- Witness for C10: the fix (0, 1) from state (0, 0) smooths to (0, 0.2),
which lies between the endpoints and inside the valid ranges; the display
profile smooths the same fix to longitude 0.3. -/
theorem c10_witness :
    (∃ c : Coordinates,
      processBackendUpdate 0 1 none (some ⟨0, 0, 0, 0, 0⟩) 1000 =
        some (c, FixStatus.smoothed) ∧
      min (0 : ℝ) 1 ≤ c.longitude ∧ c.longitude ≤ max (0 : ℝ) 1 ∧
      -180 ≤ c.longitude ∧ c.longitude ≤ 180) ∧
    (smoothCoordinate 0 1 (some ⟨0, 0, 0, 0, 0⟩) 1000).lng =
      0 + DISPLAY_SMOOTHING_ALPHA * (1 - 0) := by
  have hout : ¬ (haversineDistance 0 0 0 1 * 1000 > MAX_JUMP_METERS ∧
      (1000 : ℝ) - 0 < MIN_TIME_BETWEEN_FIXES) := by
    rintro ⟨-, hdt⟩
    norm_num [MIN_TIME_BETWEEN_FIXES] at hdt
  have hmov : ¬ (haversineDistance 0 0 0 1 * 1000 <
      BACKEND_MOVEMENT_THRESHOLD_METERS) :=
    not_lt.2 (le_trans (by norm_num [BACKEND_MOVEMENT_THRESHOLD_METERS]) hav01_lower)
  have hmovD : ¬ (haversineDistance 0 0 0 1 * 1000 <
      DISPLAY_MOVEMENT_THRESHOLD_METERS) :=
    not_lt.2 (le_trans (by norm_num [DISPLAY_MOVEMENT_THRESHOLD_METERS]) hav01_lower)
  have hp := pbu_smoothed 0 1 none ⟨0, 0, 0, 0, 0⟩ 1000 rfl hout hmov
  have hmain := (c10_smoothed_convex.1 0 1 none ⟨0, 0, 0, 0, 0⟩ 1000 _ hp)
  have hdisp := (c10_smoothed_convex.2.2 0 1 ⟨0, 0, 0, 0, 0⟩ 1000 hmovD)
  exact ⟨⟨_, hp, hmain.2.2.1.1, hmain.2.2.1.2,
    (hmain.2.2.2.2 (by norm_num) (by norm_num) (by norm_num) (by norm_num)).1,
    (hmain.2.2.2.2 (by norm_num) (by norm_num) (by norm_num) (by norm_num)).2⟩,
    hdisp.2.1⟩

/-- An application whose fix equals the last raw coordinate of the state is held:
the accepted coordinate is unchanged and the committed state keeps it,
refreshing only the raw bookkeeping and the timestamp. -/
theorem held_step (s : BackendUpdateState) (lat lng : ℝ) (accuracy : Option ℝ)
    (now : ℝ) (hacc : accuracyRejected accuracy = false)
    (h1 : s.lastRawLat = lat) (h2 : s.lastRawLng = lng) :
    processBackendUpdate lat lng accuracy (some s) now =
      some (⟨s.lat, s.lng⟩, FixStatus.held) ∧
    (conditionStep lat lng accuracy (some s) now).1 =
      some ⟨s.lat, s.lng, lat, lng, now⟩ := by
  have hz : haversineDistance s.lastRawLat s.lastRawLng lat lng * 1000 = 0 := by
    rw [h1, h2, haversineDistance_self]
    ring
  have hout : ¬ (haversineDistance s.lastRawLat s.lastRawLng lat lng * 1000 >
      MAX_JUMP_METERS ∧ now - s.lastUpdateTime < MIN_TIME_BETWEEN_FIXES) := by
    intro hc
    rw [hz] at hc
    exact absurd hc.1 (by norm_num [MAX_JUMP_METERS])
  have hmov : haversineDistance s.lastRawLat s.lastRawLng lat lng * 1000 <
      BACKEND_MOVEMENT_THRESHOLD_METERS := by
    rw [hz]
    norm_num [BACKEND_MOVEMENT_THRESHOLD_METERS]
  have hp := pbu_held lat lng accuracy s now hacc hout hmov
  refine ⟨hp, ?_⟩
  rw [conditionStep_of_some lat lng accuracy (some s) now _ _ hp]

/-- C8 (amended): repeated application of an identical fix does not converge
to the raw coordinate.  Once the last raw coordinate of the state equals the fix
(true after any accepted application of that fix), every further application
returns `held` and the committed state keeps the accepted coordinate
unchanged, so the accepted-to-raw distance stays constant instead of tending
to zero. -/
theorem c8_no_convergence (s : BackendUpdateState) (lat lng : ℝ)
    (accuracy : Option ℝ) (now : ℝ) (hacc : accuracyRejected accuracy = false)
    (h1 : s.lastRawLat = lat) (h2 : s.lastRawLng = lng) :
    processBackendUpdate lat lng accuracy (some s) now =
      some (⟨s.lat, s.lng⟩, FixStatus.held) ∧
    (conditionStep lat lng accuracy (some s) now).1 =
      some ⟨s.lat, s.lng, lat, lng, now⟩ :=
  held_step s lat lng accuracy now hacc h1 h2

/-- Witness for C8 on the frozen state (accepted (0, 0.2), last raw (0, 1)):
the identical fix (0, 1) is held and the accepted coordinate is preserved. -/
theorem c8_witness :
    accuracyRejected none = false ∧
    processBackendUpdate 0 1 none (some ⟨0, 0.2, 0, 1, 0⟩) 7 =
      some (⟨0, 0.2⟩, FixStatus.held) ∧
    (conditionStep 0 1 none (some ⟨0, 0.2, 0, 1, 0⟩) 7).1 =
      some ⟨0, 0.2, 0, 1, 7⟩ := by
  have h := c8_no_convergence ⟨0, 0.2, 0, 1, 0⟩ 0 1 none 7 rfl rfl rfl
  exact ⟨rfl, h.1, h.2⟩

/-- The first step of the convergence run: the fix (0, 1) from the origin
state smooths the accepted coordinate to (0, 0.2). -/
theorem smoothed_step0 (now : ℝ)
    (hnow : ¬ ((now : ℝ) - 0 < MIN_TIME_BETWEEN_FIXES)) :
    (conditionStep 0 1 none (some ⟨0, 0, 0, 0, 0⟩) now).1 =
      some ⟨0, 0.2, 0, 1, now⟩ := by
  have hout : ¬ (haversineDistance 0 0 0 1 * 1000 > MAX_JUMP_METERS ∧
      now - 0 < MIN_TIME_BETWEEN_FIXES) := fun hc => hnow hc.2
  have hmov : ¬ (haversineDistance 0 0 0 1 * 1000 <
      BACKEND_MOVEMENT_THRESHOLD_METERS) :=
    not_lt.2 (le_trans (by norm_num [BACKEND_MOVEMENT_THRESHOLD_METERS]) hav01_lower)
  have hp := pbu_smoothed 0 1 none ⟨0, 0, 0, 0, 0⟩ now rfl hout hmov
  rw [conditionStep_of_some 0 1 none (some ⟨0, 0, 0, 0, 0⟩) now _ _ hp]
  simp only [BACKEND_SMOOTHING_ALPHA]
  norm_num

/-- C8 is refuted as stated: in the concrete run `c8run` (identical fix
(0, 1) every second from the origin state), the accepted-to-raw distance is
the same at every step from step 1 on and is strictly positive, so it does
not tend to zero. -/
theorem c8_counterexample :
    (∀ n : ℕ, c8dist (n + 1) = c8dist 1) ∧ 0 < c8dist 1 := by
  have hrun : ∀ n : ℕ, c8run (n + 1) =
      some ⟨0, 0.2, 0, 1, 1000 * ((n : ℝ) + 1)⟩ := by
    intro n
    induction n with
    | zero =>
      show (conditionStep 0 1 none (c8run 0) (1000 * (((0 : ℕ) : ℝ) + 1))).1 = _
      show (conditionStep 0 1 none (some ⟨0, 0, 0, 0, 0⟩)
        (1000 * (((0 : ℕ) : ℝ) + 1))).1 = _
      rw [smoothed_step0 _ (by norm_num [MIN_TIME_BETWEEN_FIXES])]
    | succ n ih =>
      show (conditionStep 0 1 none (c8run (n + 1))
        (1000 * (((n + 1 : ℕ) : ℝ) + 1))).1 = _
      rw [ih, (held_step ⟨0, 0.2, 0, 1, 1000 * ((n : ℝ) + 1)⟩ 0 1 none
        (1000 * (((n + 1 : ℕ) : ℝ) + 1)) rfl rfl rfl).2]
  have hdist : ∀ n : ℕ, c8dist (n + 1) = haversineDistance 0 0.2 0 1 := by
    intro n
    unfold c8dist
    rw [hrun n]
  constructor
  · intro n
    rw [hdist n]
    show haversineDistance 0 0.2 0 1 = c8dist (0 + 1)
    rw [hdist 0]
  · show 0 < c8dist (0 + 1)
    rw [hdist 0]
    exact hav_02_1_pos

end ERCS
